import Mathlib

/-!
Verification development for the PhishingPlatform repository.

The repository slice at hand contains the Next.js frontend (pages,
components, TypeScript types).  The campaign execution engine (campaign
state machine, mail dispatch worker, tracking event ingestor, statistics
aggregator) lives in the backend service, which is not part of this slice;
where a property concerns that engine, the corresponding definitions are
modelled from the specification text and marked as such in their doc
comments.  Everything else is translated directly from the frontend
sources.
-/

namespace PhishingPlatform

/-! ## Badge component (src frontend components, `Badge` / `StatusBadge`) -/

/-- Badge variants, from the `BadgeProps` interface:
`variant?: 'default' | 'success' | 'warning' | 'danger' | 'info'`. -/
inductive BadgeVariant
  | default
  | success
  | warning
  | danger
  | info
deriving DecidableEq, Repr

/-- The `statusConfig` record literal inside `StatusBadge`, embedded as an
association list from status key to `(variant, label)`. -/
def statusConfig : List (String × BadgeVariant × String) :=
  [("DRAFT", BadgeVariant.default, "Draft"),
   ("SCHEDULED", BadgeVariant.info, "Scheduled"),
   ("RUNNING", BadgeVariant.warning, "Running"),
   ("COMPLETED", BadgeVariant.success, "Completed"),
   ("PENDING", BadgeVariant.default, "Pending"),
   ("QUEUED", BadgeVariant.info, "Queued"),
   ("SENT", BadgeVariant.success, "Sent"),
   ("FAILED", BadgeVariant.danger, "Failed"),
   ("EASY", BadgeVariant.success, "Easy"),
   ("MEDIUM", BadgeVariant.warning, "Medium"),
   ("HARD", BadgeVariant.danger, "Hard"),
   ("LOW", BadgeVariant.success, "Low"),
   ("HIGH", BadgeVariant.danger, "High")]

/-- The property names every plain JavaScript object literal inherits from
`Object.prototype`; accessing one of them on `statusConfig` yields the
inherited member (a function, or the prototype object for `__proto__`),
which is truthy. -/
def objectPrototypeKeys : List String :=
  ["constructor", "hasOwnProperty", "isPrototypeOf", "propertyIsEnumerable",
   "toLocaleString", "toString", "valueOf", "__proto__",
   "__defineGetter__", "__defineSetter__", "__lookupGetter__", "__lookupSetter__"]

/-- The possible results of the JavaScript property access
`statusConfig[status]`: an own entry of the record literal, a truthy member
inherited from `Object.prototype`, or `undefined`. -/
inductive JsAccess
  | own (variant : BadgeVariant) (label : String)
  | inherited
  | absent
deriving DecidableEq, Repr

/-- The JavaScript property access `statusConfig[status]`: an own key wins;
otherwise the prototype chain is consulted, so an `Object.prototype`
member name yields a truthy inherited value; only then `undefined`. -/
def statusConfigAccess (status : String) : JsAccess :=
  match statusConfig.lookup status with
  | some (v, l) => .own v l
  | none => if status ∈ objectPrototypeKeys then .inherited else .absent

/-- The `StatusBadge` component:
`const config = statusConfig[status] || { variant: 'default', label: status }`,
rendering a badge with `config.variant` and `config.label`.  On an own key
both come from the entry.  On an inherited `Object.prototype` member the
access is truthy, so the `||` fallback does not fire: `config.variant` and
`config.label` are then `undefined`, `Badge`'s destructuring default turns
the `undefined` variant into `'default'`, and the label renders as nothing
(`none` here).  Only a genuinely absent key takes the fallback with the
raw status string as label. -/
def StatusBadge (status : String) : BadgeVariant × Option String :=
  match statusConfigAccess status with
  | .own v l => (v, some l)
  | .inherited => (BadgeVariant.default, none)
  | .absent => (BadgeVariant.default, some status)

/-- The known keys of `statusConfig`. -/
def statusConfigKeys : List String :=
  statusConfig.map (fun entry => entry.1)

/-! ## Dashboard page (src frontend, `DashboardPage`) -/

/-- The `DashboardStats` interface from `src/frontend/src/types/index.ts`. -/
structure DashboardStats where
  total_campaigns : Nat
  campaigns_passed : Nat
  campaigns_failed : Nat
  success_rate : ℚ
deriving DecidableEq, Repr

/-- The value shown by the Success Rate card in `DashboardPage`:
the JSX expression `${stats?.success_rate || 100}%`.  `stats` is the
fetched stats object (absent while unavailable, hence `Option`); the
JavaScript `||` operator yields its right operand whenever the left one
is `undefined` (absent object) or the number `0`. -/
def successRateCardValue (stats : Option DashboardStats) : ℚ :=
  match stats with
  | none => 100
  | some s => if s.success_rate = 0 then 100 else s.success_rate

/-! ## Campaign execution engine

The engine itself (backend service and mail scheduler) is not part of the
repository slice; the definitions below are modelled from the specification
text, over the record shapes declared in `src/frontend/src/types/index.ts`.
-/

/-- Campaign statuses, from the `Campaign` interface of
`src/frontend/src/types/index.ts`:
`status: 'DRAFT' | 'SCHEDULED' | 'RUNNING' | 'COMPLETED'`. -/
inductive CampaignStatus
  | DRAFT
  | SCHEDULED
  | RUNNING
  | COMPLETED
deriving DecidableEq, Repr

/-- A Target row, following the `CampaignTarget` interface of
`src/frontend/src/types/index.ts` (display-only fields omitted); timestamps
are abstract instants. -/
structure Target where
  campaign_id : String
  user_id : String
  email_sent : Bool
  email_sent_at : Option Nat
  email_opened : Bool
  email_opened_at : Option Nat
  link_clicked : Bool
  link_clicked_at : Option Nat
  credentials_submitted : Bool
  submitted_at : Option Nat
deriving DecidableEq, Repr

/-- Modelled from the spec: a Dispatch Job carries campaign id, target id,
attempt count (section 3, Dispatch Job). -/
structure DispatchJob where
  campaign_id : String
  target_id : String
  attempt : Nat
deriving DecidableEq, Repr

/-- Modelled from the spec: the state owned by the Campaign State Machine for
one campaign, together with that campaign's slice of the Target Registry and
of the Dispatch Queue (sections 2 to 4.1).  Campaign fields follow the
`Campaign` interface of `src/frontend/src/types/index.ts`. -/
structure CampaignState where
  campaign_id : String
  name : String
  template_id : Option String
  target_user_ids : List String
  status : CampaignStatus
  scheduled_at : Option Nat
  started_at : Option Nat
  completed_at : Option Nat
  targets : List Target
  queue : List DispatchJob
deriving DecidableEq, Repr

/-- Error taxonomy of the lifecycle operations (spec section 7). -/
inductive LifecycleError
  | ValidationError
  | InvalidStateError
deriving DecidableEq, Repr

/-- A freshly materialized Target row for one user: every interaction flag
false, no timestamps (spec section 3, Target). -/
def mkTarget (cid uid : String) : Target :=
  { campaign_id := cid, user_id := uid,
    email_sent := false, email_sent_at := none,
    email_opened := false, email_opened_at := none,
    link_clicked := false, link_clicked_at := none,
    credentials_submitted := false, submitted_at := none }

/-- Modelled from the spec: `create(company, template, targets)` fails with
`ValidationError` if the target list is empty or the template is missing,
and otherwise returns a `DRAFT` campaign with zero Target rows yet
materialized (spec section 4.1). -/
def create (cid nm : String) (template_id : Option String) (users : List String) :
    Except LifecycleError CampaignState :=
  if users.isEmpty || template_id.isNone then
    .error .ValidationError
  else
    .ok { campaign_id := cid, name := nm, template_id := template_id,
          target_user_ids := users, status := .DRAFT,
          scheduled_at := none, started_at := none, completed_at := none,
          targets := [], queue := [] }

/-- Modelled from the spec: `schedule(campaign, at)` is allowed only from
`DRAFT` and fails with `InvalidStateError` otherwise (spec section 4.1). -/
def schedule (c : CampaignState) (t : Nat) : Except LifecycleError CampaignState :=
  if c.status = .DRAFT then
    .ok { c with status := .SCHEDULED, scheduled_at := some t }
  else
    .error .InvalidStateError

/-- Modelled from the spec: `start(campaign)` is allowed from `DRAFT` or
`SCHEDULED`; it materializes one Target row per listed user, enqueues one
Dispatch Job per Target and transitions to `RUNNING`.  Re-running `start`
on an already-`RUNNING` campaign is a no-op (spec section 4.1); the
scheduled-time-reached check is external and treated as forced. -/
def start (c : CampaignState) (now : Nat) : Except LifecycleError CampaignState :=
  match c.status with
  | .DRAFT | .SCHEDULED =>
      let tgts := c.target_user_ids.dedup.map (mkTarget c.campaign_id)
      .ok { c with
              status := .RUNNING
              started_at := some now
              targets := tgts
              queue := tgts.map (fun t =>
                { campaign_id := c.campaign_id, target_id := t.user_id, attempt := 0 }) }
  | .RUNNING => .ok c
  | .COMPLETED => .error .InvalidStateError

/-- Modelled from the spec: `stop(campaign)` is allowed only from `RUNNING`,
marks the campaign `COMPLETED`, and fails with `InvalidStateError`
otherwise (spec section 4.1). -/
def stop (c : CampaignState) (now : Nat) : Except LifecycleError CampaignState :=
  if c.status = .RUNNING then
    .ok { c with status := .COMPLETED, completed_at := some now }
  else
    .error .InvalidStateError

/-- A Target row counts as resolved for the exhaustion check once its email
has been sent (spec section 4.1, `markCompletedIfExhausted`). -/
def Target.resolved (t : Target) : Bool :=
  t.email_sent

/-- Modelled from the spec: `markCompletedIfExhausted` automatically
transitions `RUNNING` to `COMPLETED` once no Target remains unresolved and
no jobs remain queued; it is an internal reconciliation check, not a user
action, and does nothing otherwise (spec section 4.1). -/
def markCompletedIfExhausted (c : CampaignState) (now : Nat) :
    Except LifecycleError CampaignState :=
  if c.status = .RUNNING && c.queue.isEmpty && c.targets.all Target.resolved then
    .ok { c with status := .COMPLETED, completed_at := some now }
  else
    .ok c

/-- The lifecycle operations other than `create` (which builds the initial
state), as a single type of actions on a campaign. -/
inductive LifecycleOp
  | schedule (t : Nat)
  | start (now : Nat)
  | stop (now : Nat)
  | markCompletedIfExhausted (now : Nat)
deriving DecidableEq, Repr

/-- Apply one lifecycle operation. -/
def applyOp : LifecycleOp → CampaignState → Except LifecycleError CampaignState
  | .schedule t, c => schedule c t
  | .start n, c => start c n
  | .stop n, c => stop c n
  | .markCompletedIfExhausted n, c => markCompletedIfExhausted c n

/-- The status edges the specification allows:
DRAFT to SCHEDULED, DRAFT to RUNNING, SCHEDULED to RUNNING,
RUNNING to COMPLETED (spec sections 4.1 and 8). -/
def allowedEdge : CampaignStatus → CampaignStatus → Bool
  | .DRAFT, .SCHEDULED => true
  | .DRAFT, .RUNNING => true
  | .SCHEDULED, .RUNNING => true
  | .RUNNING, .COMPLETED => true
  | _, _ => false

/-- Apply one lifecycle operation, keeping the state unchanged when the
operation fails: a surfaced `ValidationError` or `InvalidStateError`
mutates nothing (spec section 7). -/
def applyOpOrStay (op : LifecycleOp) (c : CampaignState) : CampaignState :=
  match applyOp op c with
  | .ok c' => c'
  | .error _ => c

/-- The successive campaign states traversed while running a sequence of
lifecycle operations. -/
def runTrace (c : CampaignState) : List LifecycleOp → List CampaignState
  | [] => []
  | op :: ops => applyOpOrStay op c :: runTrace (applyOpOrStay op c) ops

/-- A concrete DRAFT campaign used by the witnesses (note the duplicated
listed user "u1"). -/
def demoDraft : CampaignState :=
  { campaign_id := "c1", name := "Demo", template_id := some "t1",
    target_user_ids := ["u1", "u2", "u1"], status := .DRAFT,
    scheduled_at := none, started_at := none, completed_at := none,
    targets := [], queue := [] }

/-- The campaign obtained by starting `demoDraft` at instant 3. -/
def demoRunning : CampaignState :=
  match start demoDraft 3 with
  | .ok c => c
  | .error _ => demoDraft

/-! ## Theorems for the campaign lifecycle claims -/

/-- Every lifecycle operation that succeeds either leaves the status
unchanged or follows one of the specification's allowed edges. -/
theorem applyOp_status_step (op : LifecycleOp) (c c' : CampaignState)
    (h : applyOp op c = .ok c') :
    c'.status = c.status ∨ allowedEdge c.status c'.status = true := by
  cases op with
    | schedule t =>
        simp only [applyOp] at h
        unfold schedule at h
        split at h
        · rename_i hs
          injection h with h2
          subst h2
          right
          rw [hs]
          rfl
        · exact Except.noConfusion h
    | start n =>
        simp only [applyOp] at h
        rcases hstat : c.status with _ | _ | _ | _ <;>
          simp only [start, hstat] at h
        · injection h with h2
          subst h2
          right
          rfl
        · injection h with h2
          subst h2
          right
          rfl
        · injection h with h2
          subst h2
          left
          exact hstat
        · exact Except.noConfusion h
    | stop n =>
        simp only [applyOp] at h
        unfold stop at h
        split at h
        · rename_i hs
          injection h with h2
          subst h2
          right
          rw [hs]
          rfl
        · exact Except.noConfusion h
    | markCompletedIfExhausted n =>
        simp only [applyOp] at h
        unfold markCompletedIfExhausted at h
        split at h
        · rename_i hs
          simp only [Bool.and_eq_true, decide_eq_true_eq] at hs
          injection h with h2
          subst h2
          right
          rw [hs.1.1]
          rfl
        · injection h with h2
          subst h2
          left
          rfl

/-- C1: the status field only ever moves along the edges DRAFT to SCHEDULED,
DRAFT to RUNNING, SCHEDULED to RUNNING, and RUNNING to COMPLETED: `create`
yields a DRAFT campaign, every lifecycle operation that succeeds either
leaves the status unchanged or follows an allowed edge, and along any
sequence of the lifecycle operations every consecutive pair of states does
so too; no other transition (in particular no regression such as RUNNING
to DRAFT) is reachable. -/
theorem campaign_status_edges :
    (∀ (cid nm : String) (tpl : Option String) (users : List String) (c : CampaignState),
        create cid nm tpl users = .ok c → c.status = .DRAFT) ∧
    (∀ (op : LifecycleOp) (c c' : CampaignState),
        applyOp op c = .ok c' →
          c'.status = c.status ∨ allowedEdge c.status c'.status = true) ∧
    (∀ (ops : List LifecycleOp) (c : CampaignState),
        List.Chain (fun a b => b.status = a.status ∨ allowedEdge a.status b.status = true)
          c (runTrace c ops)) := by
  refine ⟨?_, applyOp_status_step, ?_⟩
  · intro cid nm tpl users c h
    unfold create at h
    split at h
    · exact Except.noConfusion h
    · injection h with h2
      subst h2
      rfl
  · intro ops
    induction ops with
    | nil => intro c; exact List.Chain.nil
    | cons op ops ih =>
        intro c
        refine List.Chain.cons ?_ (ih _)
        unfold applyOpOrStay
        cases hap : applyOp op c with
        | ok c' => exact applyOp_status_step op c c' hap
        | error e => exact Or.inl rfl

/-- Witness for C1: starting the concrete DRAFT campaign follows an allowed
edge. -/
theorem campaign_status_edges_witness :
    demoRunning.status = demoDraft.status ∨
      allowedEdge demoDraft.status demoRunning.status = true :=
  campaign_status_edges.2.1 (.start 3) demoDraft demoRunning rfl

/-- C6: `stop` succeeds exactly when the campaign is RUNNING, in which case
it marks the campaign COMPLETED; in any other status it fails with
`InvalidStateError` and leaves the campaign unchanged (it returns only an
error, mutating nothing). -/
theorem stop_running_only (c : CampaignState) (now : Nat) :
    (c.status = .RUNNING →
      stop c now = .ok { c with status := .COMPLETED, completed_at := some now }) ∧
    (c.status ≠ .RUNNING → stop c now = .error .InvalidStateError) := by
  constructor <;> intro h <;> simp [stop, h]

/-- Witness for C6: stopping the concrete RUNNING campaign completes it, and
stopping the concrete DRAFT campaign fails. -/
theorem stop_running_only_witness :
    stop demoRunning 7 =
      .ok { demoRunning with status := .COMPLETED, completed_at := some 7 } ∧
    stop demoDraft 7 = .error .InvalidStateError :=
  ⟨(stop_running_only demoRunning 7).1 rfl,
   (stop_running_only demoDraft 7).2 (by decide)⟩

/-- C7: `create` fails with `ValidationError` whenever the target list is
empty or the template is missing, and otherwise returns a campaign in
status DRAFT with zero Target rows materialized. -/
theorem create_validation (cid nm : String) (tpl : Option String) (users : List String) :
    ((users = [] ∨ tpl = none) → create cid nm tpl users = .error .ValidationError) ∧
    (users ≠ [] → tpl ≠ none →
      ∃ c, create cid nm tpl users = .ok c ∧ c.status = .DRAFT ∧ c.targets = []) := by
  constructor
  · intro h
    rcases h with h | h <;> subst h <;> simp [create]
  · intro h1 h2
    cases users with
    | nil => exact absurd rfl h1
    | cons u us =>
        cases tpl with
        | none => exact absurd rfl h2
        | some tid => exact ⟨_, rfl, rfl, rfl⟩

/-- Witness for C7: creating with an empty target list fails, creating with a
missing template fails, and the concrete valid creation yields a DRAFT
campaign with no targets. -/
theorem create_validation_witness :
    create "c1" "Demo" (some "t1") [] = .error .ValidationError ∧
    create "c1" "Demo" none ["u1"] = .error .ValidationError ∧
    ∃ c, create "c1" "Demo" (some "t1") ["u1", "u2", "u1"] = .ok c ∧
      c.status = .DRAFT ∧ c.targets = [] :=
  ⟨(create_validation "c1" "Demo" (some "t1") []).1 (Or.inl rfl),
   (create_validation "c1" "Demo" none ["u1"]).1 (Or.inr rfl),
   (create_validation "c1" "Demo" (some "t1") ["u1", "u2", "u1"]).2
     (by decide) (by decide)⟩

/-- C4: starting a fresh (DRAFT or SCHEDULED) campaign is idempotent: after
the call the registry holds exactly one Target row per listed user (never
duplicates, even when a user is listed twice), and a second `start` on the
now-RUNNING campaign is a no-op. -/
theorem start_idempotent (c : CampaignState) (now now' : Nat) (c₁ : CampaignState)
    (hs : c.status = .DRAFT ∨ c.status = .SCHEDULED)
    (h : start c now = .ok c₁) :
    start c₁ now' = .ok c₁ ∧
    ∀ u ∈ c.target_user_ids,
      c₁.targets.countP (fun t => t.user_id == u) = 1 := by
  have hmain : ∀ u ∈ c.target_user_ids,
      (c.target_user_ids.dedup.map (mkTarget c.campaign_id)).countP
        (fun t => t.user_id == u) = 1 := by
    intro u hu
    rw [List.countP_map]
    have hcomp : ((fun t => t.user_id == u) ∘ mkTarget c.campaign_id) =
        (fun v => v == u) := rfl
    rw [hcomp]
    have hcount : List.countP (fun v => v == u) c.target_user_ids.dedup =
        List.count u c.target_user_ids.dedup := rfl
    rw [hcount, List.count_dedup]
    simp [hu]
  rcases hs with hs | hs <;>
    · simp only [start, hs] at h
      injection h with h2
      subst h2
      exact ⟨rfl, hmain⟩

/-- Witness for C4: starting the concrete DRAFT campaign (which lists user
"u1" twice) and starting it again is a no-op with exactly one Target row
per listed user. -/
theorem start_idempotent_witness :
    start demoRunning 5 = .ok demoRunning ∧
    ∀ u ∈ demoDraft.target_user_ids,
      demoRunning.targets.countP (fun t => t.user_id == u) = 1 :=
  start_idempotent demoDraft 3 5 demoRunning (Or.inl rfl) rfl

/-! ## Tracking Event Ingestor and Statistics Aggregator -/

/-- The three tracking event kinds (spec section 4.4). -/
inductive TrackEventKind
  | opened
  | clicked
  | submitted
deriving DecidableEq, Repr

/-- Modelled from the spec: the upsert of one tracking event into a Target
row (spec sections 3 and 4.4).  Recording is idempotent for an
already-marked stage, and a later stage backfills the earlier stages, the
backfilled timestamps defaulting to the event's timestamp when never
independently observed. -/
def applyEvent (k : TrackEventKind) (now : Nat) (t : Target) : Target :=
  match k with
  | .opened =>
      if t.email_opened then t
      else { t with email_opened := true, email_opened_at := some now }
  | .clicked =>
      let t1 :=
        if t.email_opened then t
        else { t with email_opened := true, email_opened_at := some now }
      if t1.link_clicked then t1
      else { t1 with link_clicked := true, link_clicked_at := some now }
  | .submitted =>
      let t1 :=
        if t.email_opened then t
        else { t with email_opened := true, email_opened_at := some now }
      let t2 :=
        if t1.link_clicked then t1
        else { t1 with link_clicked := true, link_clicked_at := some now }
      if t2.credentials_submitted then t2
      else { t2 with credentials_submitted := true, submitted_at := some now }

/-- Apply a sequence of timestamped tracking events to a Target row, in
arrival order. -/
def applyEvents (evs : List (TrackEventKind × Nat)) (t : Target) : Target :=
  evs.foldl (fun t ev => applyEvent ev.1 ev.2 t) t

/-- The monotonic interaction-ladder invariant on a Target row:
credentials_submitted implies link_clicked, and link_clicked implies
email_opened (spec sections 3 and 8). -/
def ladderOk (t : Target) : Prop :=
  (t.credentials_submitted = true → t.link_clicked = true) ∧
  (t.link_clicked = true → t.email_opened = true)

/-- Modelled from the spec: the token verification outcome of the Tracking
Token Codec, either Invalid or the bound (campaign id, target id) pair
(spec section 4.3). -/
inductive VerifyResult
  | Invalid
  | Valid (campaignId targetId : String)
deriving DecidableEq, Repr

/-- The generic success-shaped response of each tracking endpoint: a pixel
for `opened`, a redirect for `clicked`, a plain acknowledgement for
`submitted` (spec sections 4.4 and 6); it carries no token-validity
information. -/
inductive TrackResponse
  | pixel
  | redirect
  | ack
deriving DecidableEq, Repr

/-- The response shape each handler returns, depending only on the event
kind. -/
def genericResponse : TrackEventKind → TrackResponse
  | .opened => .pixel
  | .clicked => .redirect
  | .submitted => .ack

/-- Modelled from the spec: one tracking event handler of the Tracking Event
Ingestor (spec section 4.4), parameterized by the codec's verification
function.  On `Invalid` it records nothing and returns the generic
success-shaped response; on a valid token it upserts the bound Target row
and returns the same generic response. -/
def handleTrackingEvent (verify : String → VerifyResult) (k : TrackEventKind)
    (token : String) (now : Nat) (registry : List Target) :
    List Target × TrackResponse :=
  match verify token with
  | .Invalid => (registry, genericResponse k)
  | .Valid cid tid =>
      (registry.map (fun t =>
        if t.campaign_id == cid && t.user_id == tid then applyEvent k now t else t),
       genericResponse k)

/-- Round a rational to two decimal places, the fixed precision of the
aggregator's percentages (spec section 4.5). -/
def round2 (q : ℚ) : ℚ :=
  (round (q * 100) : ℤ) / 100

/-- Modelled from the spec: a derived percentage of the Statistics
Aggregator; 0 when the denominator is 0, otherwise
`round(100 * count / total, 2)` (spec section 4.5). -/
def ratePercent (count total : Nat) : ℚ :=
  if total = 0 then 0 else round2 (100 * (count : ℚ) / (total : ℚ))

/-- The `CampaignStats` interface from `src/frontend/src/types/index.ts`. -/
structure CampaignStats where
  campaign_id : String
  campaign_name : String
  status : String
  total_targets : Nat
  emails_sent : Nat
  emails_opened : Nat
  links_clicked : Nat
  credentials_submitted : Nat
  open_rate : ℚ
  click_rate : ℚ
  submission_rate : ℚ
deriving DecidableEq, Repr

/-- The status strings of the `Campaign` interface. -/
def CampaignStatus.toStr : CampaignStatus → String
  | .DRAFT => "DRAFT"
  | .SCHEDULED => "SCHEDULED"
  | .RUNNING => "RUNNING"
  | .COMPLETED => "COMPLETED"

/-- Modelled from the spec: `getCampaignStats`, the read-side computation of
the Statistics Aggregator over the campaign's Target rows (spec sections
4.5 and 6), producing the record shape declared by the frontend's
`CampaignStats` interface; total targets (not emails actually sent) is the
rate denominator. -/
def getCampaignStats (c : CampaignState) : CampaignStats :=
  { campaign_id := c.campaign_id
    campaign_name := c.name
    status := c.status.toStr
    total_targets := c.targets.length
    emails_sent := c.targets.countP (fun t => t.email_sent)
    emails_opened := c.targets.countP (fun t => t.email_opened)
    links_clicked := c.targets.countP (fun t => t.link_clicked)
    credentials_submitted := c.targets.countP (fun t => t.credentials_submitted)
    open_rate := ratePercent (c.targets.countP (fun t => t.email_opened)) c.targets.length
    click_rate := ratePercent (c.targets.countP (fun t => t.link_clicked)) c.targets.length
    submission_rate :=
      ratePercent (c.targets.countP (fun t => t.credentials_submitted)) c.targets.length }

/-- The field names of the `CampaignStats` interface of
`src/frontend/src/types/index.ts`, in declaration order. -/
def campaignStatsFields : List String :=
  ["campaign_id", "campaign_name", "status", "total_targets", "emails_sent",
   "emails_opened", "links_clicked", "credentials_submitted", "open_rate",
   "click_rate", "submission_rate"]

/-- Modelled from the spec: the seven funnel fields the spec's
`getCampaignStats(id) -> {totalTargets, sent, opened, clicked, submitted,
clickRate, submissionRate}` signature claims, rendered in the repository's
snake_case wire naming (totalTargets is total_targets, sent is
emails_sent, opened is emails_opened, clicked is links_clicked, submitted
is credentials_submitted, clickRate is click_rate, submissionRate is
submission_rate). -/
def claimedStatsFields : List String :=
  ["total_targets", "emails_sent", "emails_opened", "links_clicked",
   "credentials_submitted", "click_rate", "submission_rate"]

/-- A concrete RUNNING campaign whose registry has three Target rows, one of
which has clicked. -/
def demoStatsState : CampaignState :=
  { demoDraft with
      status := .RUNNING
      started_at := some 3
      targets := [applyEvent .clicked 4 (mkTarget "c1" "u1"),
                  mkTarget "c1" "u2", mkTarget "c1" "u3"] }

/-! ## Theorems for the tracking and statistics claims -/

/-- One tracking event upsert preserves the interaction-ladder invariant. -/
theorem ladderOk_applyEvent (k : TrackEventKind) (now : Nat) (t : Target)
    (h : ladderOk t) : ladderOk (applyEvent k now t) := by
  obtain ⟨h1, h2⟩ := h
  cases k with
  | opened =>
      by_cases ho : t.email_opened = true <;>
        simp [applyEvent, ladderOk, ho, h1, h2] <;> exact h1
  | clicked =>
      by_cases ho : t.email_opened = true <;> by_cases hc : t.link_clicked = true <;>
        simp [applyEvent, ladderOk, ho, hc, h1, h2]
  | submitted =>
      by_cases ho : t.email_opened = true <;> by_cases hc : t.link_clicked = true <;>
        by_cases hsub : t.credentials_submitted = true <;>
        simp [applyEvent, ladderOk, ho, hc, hsub, h1, h2]

/-- C2: at every state reachable by the ingestor, credentials_submitted
implies link_clicked and link_clicked implies email_opened; the invariant
is preserved under any sequence of open/click/submit events, in any
arrival order, and recording a later stage backfills the earlier stages. -/
theorem tracking_ladder :
    (∀ cid uid, ladderOk (mkTarget cid uid)) ∧
    (∀ (evs : List (TrackEventKind × Nat)) (t : Target),
        ladderOk t → ladderOk (applyEvents evs t)) ∧
    (∀ (now : Nat) (t : Target), (applyEvent .clicked now t).email_opened = true) ∧
    (∀ (now : Nat) (t : Target),
        (applyEvent .submitted now t).link_clicked = true ∧
        (applyEvent .submitted now t).email_opened = true) := by
  refine ⟨?_, ?_, ?_, ?_⟩
  · intro cid uid
    simp [ladderOk, mkTarget]
  · intro evs
    induction evs with
    | nil => intro t h; exact h
    | cons ev evs ih =>
        intro t h
        exact ih _ (ladderOk_applyEvent ev.1 ev.2 t h)
  · intro now t
    by_cases ho : t.email_opened = true <;> by_cases hc : t.link_clicked = true <;>
      simp [applyEvent, ho, hc]
  · intro now t
    by_cases ho : t.email_opened = true <;> by_cases hc : t.link_clicked = true <;>
      by_cases hsub : t.credentials_submitted = true <;>
      simp [applyEvent, ho, hc, hsub]

/-- Witness for C2: an out-of-order sequence (submit first, then open) on a
fresh Target row keeps the ladder invariant. -/
theorem tracking_ladder_witness :
    ladderOk (applyEvents [(.submitted, 9), (.opened, 11)] (mkTarget "c1" "u1")) :=
  tracking_ladder.2.1 [(.submitted, 9), (.opened, 11)] (mkTarget "c1" "u1")
    (by simp [ladderOk, mkTarget])

/-- C5: for every tracking request whose token fails verification, each
ingestor handler leaves every Target row unchanged and returns the generic
success-shaped response: no registry state is mutated on
token-verification failure. -/
theorem invalid_token_no_mutation (verify : String → VerifyResult)
    (k : TrackEventKind) (token : String) (now : Nat) (registry : List Target)
    (h : verify token = .Invalid) :
    handleTrackingEvent verify k token now registry = (registry, genericResponse k) := by
  simp [handleTrackingEvent, h]

/-- Witness for C5: a tampered token under an all-rejecting verifier leaves
the concrete one-row registry unchanged and yields the pixel response. -/
theorem invalid_token_no_mutation_witness :
    handleTrackingEvent (fun _ => VerifyResult.Invalid) .opened "tampered" 4
      [mkTarget "c1" "u1"] = ([mkTarget "c1" "u1"], TrackResponse.pixel) :=
  invalid_token_no_mutation (fun _ => VerifyResult.Invalid) .opened "tampered" 4
    [mkTarget "c1" "u1"] rfl

/-- C3: the aggregator's click_rate and submission_rate are 0 when the
campaign has no targets, and otherwise equal round(100 * count /
totalTargets, 2) with total targets as the denominator; the zero
denominator is guarded, so no division by zero occurs. -/
theorem stats_rates (c : CampaignState) :
    (c.targets.length = 0 →
      (getCampaignStats c).click_rate = 0 ∧
      (getCampaignStats c).submission_rate = 0) ∧
    (c.targets.length ≠ 0 →
      (getCampaignStats c).click_rate =
        round2 (100 * (c.targets.countP (fun t => t.link_clicked) : ℚ) /
          (c.targets.length : ℚ)) ∧
      (getCampaignStats c).submission_rate =
        round2 (100 * (c.targets.countP (fun t => t.credentials_submitted) : ℚ) /
          (c.targets.length : ℚ))) := by
  constructor <;> intro h <;> constructor <;>
    simp [getCampaignStats, ratePercent, h]

/-- Witness for C3: the zero-target DRAFT campaign has both rates 0, and the
concrete three-target campaign with one click has the rounded formula
value. -/
theorem stats_rates_witness :
    ((getCampaignStats demoDraft).click_rate = 0 ∧
      (getCampaignStats demoDraft).submission_rate = 0) ∧
    ((getCampaignStats demoStatsState).click_rate =
        round2 (100 * (demoStatsState.targets.countP (fun t => t.link_clicked) : ℚ) /
          (demoStatsState.targets.length : ℚ)) ∧
      (getCampaignStats demoStatsState).submission_rate =
        round2 (100 * (demoStatsState.targets.countP
            (fun t => t.credentials_submitted) : ℚ) /
          (demoStatsState.targets.length : ℚ))) :=
  ⟨(stats_rates demoDraft).1 rfl, (stats_rates demoStatsState).2 (by decide)⟩

/-- Counterexample for C8: the campaign stats record does not carry exactly
the seven claimed funnel fields; the `CampaignStats` interface also
declares campaign_id, campaign_name, status, and open_rate. -/
theorem campaignStats_fields_not_exact :
    campaignStatsFields ≠ claimedStatsFields ∧
    "open_rate" ∈ campaignStatsFields ∧ "open_rate" ∉ claimedStatsFields ∧
    "campaign_id" ∈ campaignStatsFields ∧ "campaign_id" ∉ claimedStatsFields := by
  decide

/-- C8 amended: for every campaign, `getCampaignStats` returns a record that
contains all seven claimed funnel fields (in the code's snake_case
naming), together with the additional fields campaign_id, campaign_name,
status, and open_rate, and the funnel fields describe that campaign's
funnel counts and rates over its Target rows. -/
theorem campaignStats_fields (c : CampaignState) :
    claimedStatsFields.all (fun f => campaignStatsFields.contains f) = true ∧
    (getCampaignStats c).total_targets = c.targets.length ∧
    (getCampaignStats c).emails_sent = c.targets.countP (fun t => t.email_sent) ∧
    (getCampaignStats c).emails_opened = c.targets.countP (fun t => t.email_opened) ∧
    (getCampaignStats c).links_clicked = c.targets.countP (fun t => t.link_clicked) ∧
    (getCampaignStats c).credentials_submitted =
      c.targets.countP (fun t => t.credentials_submitted) ∧
    (getCampaignStats c).click_rate =
      ratePercent (c.targets.countP (fun t => t.link_clicked)) c.targets.length ∧
    (getCampaignStats c).submission_rate =
      ratePercent (c.targets.countP (fun t => t.credentials_submitted))
        c.targets.length :=
  ⟨by decide, rfl, rfl, rfl, rfl, rfl, rfl, rfl⟩

/-! ## Theorems for the badge and dashboard claims -/

/-- Counterexample for C10: the status string "toString" is not one of the
13 known keys, yet `StatusBadge` does not render it as the label: the
inherited `Object.prototype.toString` member is truthy, the `||` fallback
never fires, and the rendered label is undefined (empty), not the raw
status string. -/
theorem statusBadge_prototype_counterexample :
    "toString" ∉ statusConfigKeys ∧
    StatusBadge "toString" ≠ (BadgeVariant.default, some "toString") ∧
    StatusBadge "toString" = (BadgeVariant.default, none) := by
  refine ⟨by decide, by decide, rfl⟩

/-- C10 amended: `StatusBadge` never fails on any status string; for every
input status that is neither one of the known keys (DRAFT, SCHEDULED,
RUNNING, COMPLETED, PENDING, QUEUED, SENT, FAILED, EASY, MEDIUM, HARD,
LOW, HIGH) nor an inherited `Object.prototype` member name, it renders a
badge with the default variant and the raw status string as its label;
for an `Object.prototype` member name (toString, valueOf, hasOwnProperty,
constructor, and the rest) the truthy inherited value suppresses the
fallback and it renders a badge with the default variant and an undefined
(empty) label. -/
theorem statusBadge_total_amended (status : String) (h : status ∉ statusConfigKeys) :
    (status ∉ objectPrototypeKeys →
      StatusBadge status = (BadgeVariant.default, some status)) ∧
    (status ∈ objectPrototypeKeys →
      StatusBadge status = (BadgeVariant.default, none)) := by
  simp only [statusConfigKeys, statusConfig, List.map_cons, List.map_nil, List.mem_cons,
    List.not_mem_nil, or_false, not_or] at h
  obtain ⟨h1, h2, h3, h4, h5, h6, h7, h8, h9, h10, h11, h12, h13⟩ := h
  have hlook : statusConfig.lookup status = none := by
    simp [statusConfig, List.lookup,
      beq_eq_false_iff_ne.mpr h1, beq_eq_false_iff_ne.mpr h2, beq_eq_false_iff_ne.mpr h3,
      beq_eq_false_iff_ne.mpr h4, beq_eq_false_iff_ne.mpr h5, beq_eq_false_iff_ne.mpr h6,
      beq_eq_false_iff_ne.mpr h7, beq_eq_false_iff_ne.mpr h8, beq_eq_false_iff_ne.mpr h9,
      beq_eq_false_iff_ne.mpr h10, beq_eq_false_iff_ne.mpr h11, beq_eq_false_iff_ne.mpr h12,
      beq_eq_false_iff_ne.mpr h13]
  constructor <;> intro hp <;> simp [StatusBadge, statusConfigAccess, hlook, hp]

/-- Witness for C10 at the concrete unknown status "ARCHIVED" (raw label
rendered) and at the prototype member name "toString" (empty label). -/
theorem statusBadge_total_amended_witness :
    StatusBadge "ARCHIVED" = (BadgeVariant.default, some "ARCHIVED") ∧
    StatusBadge "toString" = (BadgeVariant.default, none) :=
  ⟨(statusBadge_total_amended "ARCHIVED" (by decide)).1 (by decide),
   (statusBadge_total_amended "toString" (by decide)).2 (by decide)⟩

/-- C9: the Success Rate card of the user dashboard displays 100 whenever the
fetched stats object is absent or its success_rate field is 0, and displays
the actual success_rate only when that value is non-zero. -/
theorem successRate_card (s : DashboardStats) :
    successRateCardValue none = 100 ∧
    (s.success_rate = 0 → successRateCardValue (some s) = 100) ∧
    (s.success_rate ≠ 0 → successRateCardValue (some s) = s.success_rate) := by
  refine ⟨rfl, fun h => ?_, fun h => ?_⟩ <;> simp [successRateCardValue, h]

/-- Witness for C9: a user with a genuine 0% success rate is shown 100, and a
user with a 40% success rate is shown 40. -/
theorem successRate_card_witness :
    successRateCardValue (some ⟨10, 0, 10, 0⟩) = 100 ∧
    successRateCardValue (some ⟨10, 4, 6, 40⟩) = 40 :=
  ⟨(successRate_card ⟨10, 0, 10, 0⟩).2.1 rfl,
   (successRate_card ⟨10, 4, 6, 40⟩).2.2 (by norm_num)⟩

end PhishingPlatform
